import Mathlib

/-!
Verification of the adapter-loading logic of the Open-ReplaceAnything
repository.

The first part embeds `src/diffusers/loaders/ip_adapter.py`
(`IPAdapterMixin.load_ip_adapter`, `set_ip_adapter_scale`,
`unload_ip_adapter`) as executable Lean definitions: Python strings
appearing in key manipulations are lists of characters, Python dicts are
insertion-ordered association lists, tensors are opaque payloads, and the
fallible paths return `Except`.

The second part models the LoRA fuse / unfuse / unload / scale behaviour
exercised by `tests/lora/test_lora_layers_peft.py`.  The LoRA
implementation itself is not part of the repository sources, so that part
is modelled from the specification over exact rational arithmetic.
-/

/-- A Python string, as a list of characters (used for state-dict keys,
where the code performs `startswith` / `replace` operations). -/
abbrev PyStr := List Char

/-- Opaque stand-in for a `torch.Tensor` payload. -/
abbrev Tensor := Nat

/-- Fuel-driven core of `replChars`; the fuel is the length of the
scanned string, which suffices because every step consumes at least one
character when the pattern is nonempty. -/
def replCharsFuel (old new : PyStr) : Nat → PyStr → PyStr
  | _, [] => []
  | 0, s => s
  | fuel + 1, c :: rest =>
    if old.isPrefixOf (c :: rest) then
      match old with
      | [] => new ++ c :: rest
      | _ :: os => new ++ replCharsFuel old new fuel (rest.drop os.length)
    else c :: replCharsFuel old new fuel rest

/-- Python's `str.replace(old, new)` for a nonempty `old`: every
non-overlapping occurrence of `old` in `s`, scanned left to right, is
replaced by `new`. -/
def replChars (old new s : PyStr) : PyStr :=
  replCharsFuel old new s.length s

/-- The key namespace of projection weights inside an IP-Adapter
safetensors checkpoint. -/
def imageProjDot : PyStr := "image_proj.".toList

/-- The key namespace of cross-attention weights inside an IP-Adapter
safetensors checkpoint. -/
def ipAdapterDot : PyStr := "ip_adapter.".toList

/-- An inner (single-level) state dict: insertion-ordered keys mapping to
tensors. -/
abbrev SubDict := List (PyStr × Tensor)

/-- The nested state dict handled by `load_ip_adapter`: insertion-ordered
top-level keys, each mapping to an inner dict. -/
abbrev StateDict := List (String × SubDict)

/-- Python dict item assignment `d[k] = v` on an association list: an
existing key is updated in place (its position kept), a new key is
appended. -/
def dictAssign (d : SubDict) (k : PyStr) (v : Tensor) : SubDict :=
  if d.any (fun p => p.1 = k) then
    d.map (fun p => if p.1 = k then (p.1, v) else p)
  else d ++ [(k, v)]

/-- Python's `d[k1][k2] = v` for a nested dict whose top-level key `k1`
already exists: the inner dict stored at `k1` is updated, the top-level
key list is untouched. -/
def dictSetTop (d : StateDict) (k : String) (f : SubDict → SubDict) : StateDict :=
  d.map (fun p => if p.1 = k then (p.1, f p.2) else p)

/-- Body of the `safe_open` key loop (lines 179-183): a tensor key in
the `image_proj.` or `ip_adapter.` namespace is stored, stripped of its
namespace, in the matching inner dict; any other key is skipped. -/
def safetensorsInsert (sd : StateDict) (kv : PyStr × Tensor) : StateDict :=
  if imageProjDot.isPrefixOf kv.1 then
    dictSetTop sd "image_proj" (fun m => dictAssign m (replChars imageProjDot [] kv.1) kv.2)
  else if ipAdapterDot.isPrefixOf kv.1 then
    dictSetTop sd "ip_adapter" (fun m => dictAssign m (replChars ipAdapterDot [] kv.1) kv.2)
  else sd

/-- `load_ip_adapter`, lines 176-183: reading a `.safetensors` file, the
flat tensor keys are split into a nested dict with the two top-level
keys `image_proj` and `ip_adapter`, starting from the two empty inner
dicts. -/
def buildSafetensorsStateDict (flat : List (PyStr × Tensor)) : StateDict :=
  flat.foldl safetensorsInsert [("image_proj", []), ("ip_adapter", [])]

/-- The exact top-level key list `load_ip_adapter` requires of every
state dict. -/
def requiredKeys : List String := ["image_proj", "ip_adapter"]

/-- Error message of the required-keys check (line 191). -/
def requiredKeysError : String :=
  "Required keys are (`image_proj` and `ip_adapter`) missing from the state dict."

/-- `load_ip_adapter`, lines 189-191: `keys = list(state_dict.keys())`
must equal `["image_proj", "ip_adapter"]`, otherwise `ValueError`. -/
def requiredKeysCheck (sd : StateDict) : Except String StateDict :=
  if sd.map Prod.fst = requiredKeys then Except.ok sd
  else Except.error requiredKeysError

/-- A Python argument that may be a bare value or a list of values. -/
inductive PyArg (α : Type) where
  | scalar : α → PyArg α
  | list : List α → PyArg α

/-- `[x]` wrapping of non-list arguments (lines 110-111, 113-114,
118-119). -/
def PyArg.asList {α : Type} : PyArg α → List α
  | .scalar a => [a]
  | .list l => l

/-- Python's `l * k` on lists: `k` concatenated copies of `l`. -/
def pyListMul {α : Type} (l : List α) (k : Nat) : List α :=
  (List.replicate k l).flatten

/-- Error message for a pretrained-source length mismatch (line 124). -/
def weightNamePretrainedError : String :=
  "`weight_name` and `pretrained_model_name_or_path_or_dict` must have the same length."

/-- Error message for a subfolder length mismatch (line 127). -/
def weightNameSubfolderError : String :=
  "`weight_name` and `subfolder` must have the same length."

/-- `load_ip_adapter`, lines 110-127: list wrapping and broadcasting of
`weight_name`, `pretrained_model_name_or_path_or_dict` and `subfolder`,
followed by the two length checks. -/
def broadcastIpAdapterArgs {α β γ : Type} (pm : PyArg α) (sub : PyArg β) (wn : PyArg γ) :
    Except String (List α × List β × List γ) :=
  let wns := wn.asList
  let pms0 := pm.asList
  let pms := if pms0.length = 1 then pyListMul pms0 wns.length else pms0
  let subs0 := sub.asList
  let subs := if subs0.length = 1 then pyListMul subs0 wns.length else subs0
  if wns.length ≠ pms.length then Except.error weightNamePretrainedError
  else if wns.length ≠ subs.length then Except.error weightNameSubfolderError
  else Except.ok (pms, subs, wns)

/-- One entry of `pretrained_model_name_or_path_or_dict`: either a model
id / path (resolved through `_get_model_file`) or a state dict passed
directly. -/
inductive PretrainedSource where
  | path : String → PretrainedSource
  | dict : StateDict → PretrainedSource

/-- The safetensors file extension, as checked by
`weight_name.endswith(".safetensors")` on line 176. -/
def safetensorsExt : PyStr := ".safetensors".toList

/-- `load_ip_adapter`, lines 162-187: produce the state dict of one
entry.  A directly passed dict is used as is; a path is resolved and read
either through `safe_open` (yielding the file's flat tensor keys, here
`safeOpen`) when the weight name ends in `.safetensors`, or through
`torch.load` (yielding an arbitrary nested dict, here `torchLoad`). -/
def loadOneStateDict (safeOpen : String → String → PyStr → List (PyStr × Tensor))
    (torchLoad : String → String → PyStr → StateDict)
    (pm : PretrainedSource) (sub : String) (wn : PyStr) : StateDict :=
  match pm with
  | .dict sd => sd
  | .path p =>
    if safetensorsExt.isSuffixOf wn then buildSafetensorsStateDict (safeOpen p sub wn)
    else torchLoad p sub wn

/-- `load_ip_adapter`, lines 158-193: the loop over the zipped
broadcast arguments.  Each produced state dict passes the required-keys
check and is appended to `state_dicts`; the first failure raises
`ValueError` and aborts the loop. -/
def collectStateDicts (safeOpen : String → String → PyStr → List (PyStr × Tensor))
    (torchLoad : String → String → PyStr → StateDict) :
    List (PretrainedSource × String × PyStr) → Except String (List StateDict)
  | [] => Except.ok []
  | (pm, sub, wn) :: rest =>
    match requiredKeysCheck (loadOneStateDict safeOpen torchLoad pm sub wn) with
    | Except.error e => Except.error e
    | Except.ok sd =>
      match collectStateDicts safeOpen torchLoad rest with
      | Except.error e => Except.error e
      | Except.ok sds => Except.ok (sd :: sds)

/-- `load_ip_adapter`, lines 110-228 (pure core): broadcast the three
arguments, load and check every state dict, and return the list handed
to `unet._load_ip_adapter_weights`. -/
def load_ip_adapter (safeOpen : String → String → PyStr → List (PyStr × Tensor))
    (torchLoad : String → String → PyStr → StateDict)
    (pm : PyArg PretrainedSource) (sub : PyArg String) (wn : PyArg PyStr) :
    Except String (List StateDict) :=
  match broadcastIpAdapterArgs pm sub wn with
  | Except.error e => Except.error e
  | Except.ok (pms, subs, wns) => collectStateDicts safeOpen torchLoad (pms.zip (subs.zip wns))

/-- A UNet attention processor: an IP-Adapter processor carrying its
per-adapter scale list (`IPAdapterAttnProcessor` /
`IPAdapterAttnProcessor2_0`), the default processor installed by
`set_default_attn_processor`, or any other processor. -/
inductive AttnProc where
  | ip : List ℚ → AttnProc
  | default : AttnProc
  | other : AttnProc
deriving DecidableEq

/-- The scale argument of `set_ip_adapter_scale`: a bare number or a
list. -/
inductive ScaleArg where
  | scalar : ℚ → ScaleArg
  | list : List ℚ → ScaleArg
deriving DecidableEq

/-- Error message of `set_ip_adapter_scale` (lines 246-249) for a scale
list whose length differs from the processor's. -/
def scaleLengthError (expected got : Nat) : String :=
  "`scale` should be a list of same length as the number if ip-adapters " ++
    "Expected " ++ toString expected ++ " but got " ++ toString got ++ "."

/-- `set_ip_adapter_scale`, lines 240-250: iterate over the UNet's
attention processors; on the first IP-Adapter processor a bare scale is
expanded to `[scale] * len(attn_processor.scale)` (the loop variable
`scale` is rebound, so the expansion sticks for later processors); a
length mismatch raises `ValueError`, leaving the scales assigned so far
in place.  The result is the processor list after the call together with
the raised error, if any. -/
def set_ip_adapter_scale : List AttnProc → ScaleArg → List AttnProc × Option String
  | [], _ => ([], none)
  | AttnProc.ip s :: rest, scale =>
    let sl := match scale with
      | ScaleArg.scalar v => List.replicate s.length v
      | ScaleArg.list l => l
    if s.length ≠ sl.length then
      (AttnProc.ip s :: rest, some (scaleLengthError s.length sl.length))
    else
      let r := set_ip_adapter_scale rest (ScaleArg.list sl)
      (AttnProc.ip sl :: r.1, r.2)
  | p :: rest, scale =>
    let r := set_ip_adapter_scale rest scale
    (p :: r.1, r.2)

/-- The pipeline state touched by `unload_ip_adapter`.  Attributes that a
pipeline may lack (`image_encoder`, `feature_extractor`,
`safety_checker`) are `Option (Option _)`: `none` means the attribute is
absent (`hasattr` is false), `some none` means it is present and `None`.
Registered config entries record the `[None, None]` pairs written by
`register_to_config`. -/
structure IPPipe where
  image_encoder : Option (Option Nat)
  feature_extractor : Option (Option Nat)
  safety_checker : Option (Option Nat)
  encoder_hid_proj : Option Nat
  encoder_hid_dim_type : Option String
  attn_processors : List AttnProc
  config_image_encoder : Option Nat × Option Nat
  config_feature_extractor : Option Nat × Option Nat
deriving DecidableEq

/-- `unload_ip_adapter`, lines 252-281: drop the image encoder when one
is registered, drop the feature extractor only when the pipeline has no
`safety_checker` attribute, clear the UNet's `encoder_hid_proj` and the
config's `encoder_hid_dim_type`, and restore the default attention
processors. -/
def unload_ip_adapter (p : IPPipe) : IPPipe :=
  let p1 := match p.image_encoder with
    | some (some _) => { p with image_encoder := some none, config_image_encoder := (none, none) }
    | _ => p
  let p2 :=
    if p1.safety_checker.isNone then
      match p1.feature_extractor with
      | some (some _) =>
        { p1 with feature_extractor := some none, config_feature_extractor := (none, none) }
      | _ => p1
    else p1
  { p2 with
    encoder_hid_proj := none
    encoder_hid_dim_type := none
    attn_processors := p2.attn_processors.map (fun _ => AttnProc.default) }

/-- Modelled from the spec: the repository sources contain only the LoRA
test suite, not the LoRA implementation (`add_adapter`, `fuse_lora`,
`unfuse_lora`, `unload_lora_weights` live in the external diffusers/peft
libraries).  Per the glossary, LoRA "adds small trainable low-rank
matrices to frozen weights": an adapter is a down projection, an up
projection and a scale, over exact rational arithmetic. -/
structure LoraAdapter (n r : Nat) where
  down : Matrix (Fin r) (Fin n) ℚ
  up : Matrix (Fin n) (Fin r) ℚ
  scale : ℚ

/-- Modelled from the spec: a linear module of a text encoder or UNet,
holding frozen base weights, at most one attached LoRA adapter, and the
flag recording whether the adapter delta is currently fused into the
base weights. -/
structure LoraLinear (n r : Nat) where
  weight : Matrix (Fin n) (Fin n) ℚ
  adapter : Option (LoraAdapter n r)
  fused : Bool

/-- The delta weight an adapter contributes: `scale • (up * down)`. -/
def LoraAdapter.delta {n r : Nat} (ad : LoraAdapter n r) : Matrix (Fin n) (Fin n) ℚ :=
  ad.scale • (ad.up * ad.down)

/-- Modelled from the spec: the forward pass of a module under a runtime
LoRA scale `s` (the `cross_attention_kwargs` `scale`).  An unfused
attached adapter contributes through the separate low-rank computation
path `up (down x)`; a fused module (or one without an adapter) computes
from its base weights alone. -/
def LoraLinear.forwardScaled {n r : Nat} (l : LoraLinear n r) (s : ℚ) (x : Fin n → ℚ) :
    Fin n → ℚ :=
  match l.adapter, l.fused with
  | some ad, false =>
    Matrix.mulVec l.weight x + s • ad.scale • Matrix.mulVec ad.up (Matrix.mulVec ad.down x)
  | _, _ => Matrix.mulVec l.weight x

/-- The forward pass at the default LoRA scale 1. -/
def LoraLinear.forward {n r : Nat} (l : LoraLinear n r) (x : Fin n → ℚ) : Fin n → ℚ :=
  l.forwardScaled 1 x

/-- Modelled from the spec: `Fuse — merging adapter delta weights
directly into base weights, removing the separate adapter computation
path.`  A module with an unfused adapter gets the delta added to its
base weights and is marked fused (the adapter stays attached, as the
tests assert); otherwise the module is unchanged. -/
def LoraLinear.fuse {n r : Nat} (l : LoraLinear n r) : LoraLinear n r :=
  match l.adapter, l.fused with
  | some ad, false => { weight := l.weight + ad.delta, adapter := some ad, fused := true }
  | _, _ => l

/-- Modelled from the spec: `unfuse_lora` undoes the fuse by subtracting
the adapter delta from the base weights and restoring the separate
computation path. -/
def LoraLinear.unfuse {n r : Nat} (l : LoraLinear n r) : LoraLinear n r :=
  match l.adapter, l.fused with
  | some ad, true => { weight := l.weight - ad.delta, adapter := some ad, fused := false }
  | _, _ => l

/-- Modelled from the spec: `add_adapter` attaches a LoRA adapter to a
module, unfused, leaving the base weights frozen. -/
def LoraLinear.addAdapter {n r : Nat} (l : LoraLinear n r) (ad : LoraAdapter n r) :
    LoraLinear n r :=
  { l with adapter := some ad, fused := false }

/-- Modelled from the spec: `unload_lora_weights` removes the LoRA tuner
layer from a module, leaving the base weights. -/
def LoraLinear.unload {n r : Nat} (l : LoraLinear n r) : LoraLinear n r :=
  { l with adapter := none, fused := false }

/-- The forward pass of a stack of modules under LoRA scale `s`. -/
def encForwardScaled {n r : Nat} (ls : List (LoraLinear n r)) (s : ℚ) (x : Fin n → ℚ) :
    Fin n → ℚ :=
  ls.foldl (fun v l => l.forwardScaled s v) x

/-- The test helper `check_if_lora_correctly_set`: whether some module of
the stack carries a LoRA tuner layer. -/
def hasLoraLayer {n r : Nat} (ls : List (LoraLinear n r)) : Bool :=
  ls.any (fun l => l.adapter.isSome)

/-- Modelled from the spec: a diffusion pipeline as the composition the
tests exercise — a text encoder stack, a UNet stack, and a deterministic
decoding stage standing for the remaining (LoRA-free) components. -/
structure LoraPipeline (n r : Nat) where
  textEncoder : List (LoraLinear n r)
  unet : List (LoraLinear n r)
  decode : (Fin n → ℚ) → (Fin n → ℚ)

/-- Modelled from the spec: the deterministic noise drawn from
`torch.manual_seed(seed)` — a fixed seed yields a fixed tensor. -/
def seedNoise (n : Nat) (seed : Nat) : Fin n → ℚ :=
  fun i => (seed : ℚ) + (i.val : ℚ)

/-- Modelled from the spec: one seeded generation run at LoRA scale `s`:
encode the prompt, add the seeded noise, denoise through the UNet,
decode to an image. -/
def runScaled {n r : Nat} (p : LoraPipeline n r) (s : ℚ) (seed : Nat) (prompt : Fin n → ℚ) :
    Fin n → ℚ :=
  p.decode (encForwardScaled p.unet s (encForwardScaled p.textEncoder s prompt + seedNoise n seed))

/-- A seeded generation run at the default LoRA scale. -/
def runPipeline {n r : Nat} (p : LoraPipeline n r) (seed : Nat) (prompt : Fin n → ℚ) :
    Fin n → ℚ :=
  runScaled p 1 seed prompt

/-- Modelled from the spec: `fuse_lora` fuses every module of the text
encoder and the UNet. -/
def fuse_lora {n r : Nat} (p : LoraPipeline n r) : LoraPipeline n r :=
  { p with textEncoder := p.textEncoder.map LoraLinear.fuse, unet := p.unet.map LoraLinear.fuse }

/-- Modelled from the spec: `unfuse_lora` unfuses every module of the
text encoder and the UNet. -/
def unfuse_lora {n r : Nat} (p : LoraPipeline n r) : LoraPipeline n r :=
  { p with
    textEncoder := p.textEncoder.map LoraLinear.unfuse
    unet := p.unet.map LoraLinear.unfuse }

/-- Modelled from the spec: `unload_lora_weights` removes the LoRA tuner
layers from the text encoder and the UNet. -/
def unload_lora_weights {n r : Nat} (p : LoraPipeline n r) : LoraPipeline n r :=
  { p with
    textEncoder := p.textEncoder.map LoraLinear.unload
    unet := p.unet.map LoraLinear.unload }

/-- Modelled from the spec: `text_encoder.add_adapter(config)` attaches
a LoRA adapter to every targeted module of the text encoder. -/
def addTextAdapter {n r : Nat} (p : LoraPipeline n r) (ad : LoraAdapter n r) :
    LoraPipeline n r :=
  { p with textEncoder := p.textEncoder.map (fun l => l.addAdapter ad) }

/-- Whether no module of the stack carries a LoRA adapter. -/
def noLora {n r : Nat} (ls : List (LoraLinear n r)) : Bool :=
  ls.all (fun l => l.adapter.isNone)

/-- `np.allclose` semantics over exact rationals: every component obeys
`|a i - b i| ≤ atol + rtol * |b i|`. -/
def Allclose {n : Nat} (atol rtol : ℚ) (a b : Fin n → ℚ) : Prop :=
  ∀ i : Fin n, |a i - b i| ≤ atol + rtol * |b i|

/-- Concrete 1-dimensional adapter used to instantiate theorems. -/
def wAdapter : LoraAdapter 1 1 :=
  { down := fun _ _ => 1, up := fun _ _ => 3, scale := 1 }

/-- Concrete adapter-free 1-dimensional module used to instantiate
theorems. -/
def wBareLayer : LoraLinear 1 1 :=
  { weight := fun _ _ => 2, adapter := none, fused := false }

/-- Concrete 1-dimensional module with `wAdapter` attached, used to
instantiate theorems. -/
def wAdapterLayer : LoraLinear 1 1 :=
  { weight := fun _ _ => 2, adapter := some wAdapter, fused := false }

/-- Concrete adapter-free pipeline used to instantiate theorems. -/
def wPipe : LoraPipeline 1 1 :=
  { textEncoder := [wBareLayer], unet := [wBareLayer], decode := id }

/-- Concrete pipeline state used to instantiate the `unload_ip_adapter`
theorems: the `safety_checker` attribute is present with value `None`. -/
def wIPPipe : IPPipe :=
  { image_encoder := some (some 1)
    feature_extractor := some (some 2)
    safety_checker := some none
    encoder_hid_proj := some 3
    encoder_hid_dim_type := some "ip_image_proj"
    attn_processors := [AttnProc.ip [1], AttnProc.other]
    config_image_encoder := (some 4, some 5)
    config_feature_extractor := (some 6, some 7) }

/-- Concrete `safe_open` stand-in used to instantiate theorems: one
in-namespace tensor key and one foreign key. -/
def wSafeOpen : String → String → PyStr → List (PyStr × Tensor) :=
  fun _ _ _ => [("image_proj.w".toList, 0), ("foreign.w".toList, 1)]

/-- Concrete `torch.load` stand-in used to instantiate theorems. -/
def wTorchLoad : String → String → PyStr → StateDict :=
  fun _ _ _ => [("image_proj", []), ("ip_adapter", [])]

/-! ### Helper lemmas -/

lemma allclose_of_eq {n : Nat} {a b : Fin n → ℚ} (h : a = b) :
    Allclose (1 / 1000) (1 / 1000) a b := by
  intro i
  rw [h, sub_self, abs_zero]
  positivity

lemma pyListMul_singleton {α : Type} (a : α) (k : Nat) :
    pyListMul [a] k = List.replicate k a := by
  induction k with
  | zero => rfl
  | succ m ih =>
    simp only [pyListMul, List.replicate_succ, List.flatten_cons] at ih ⊢
    rw [ih, List.singleton_append]

lemma LoraLinear.forwardScaled_of_none {n r : Nat} (l : LoraLinear n r)
    (h : l.adapter = none) (s : ℚ) (x : Fin n → ℚ) :
    l.forwardScaled s x = Matrix.mulVec l.weight x := by
  unfold LoraLinear.forwardScaled
  rw [h]

lemma LoraLinear.forwardScaled_fuse {n r : Nat} (l : LoraLinear n r) (x : Fin n → ℚ) :
    l.fuse.forwardScaled 1 x = l.forwardScaled 1 x := by
  rcases l with ⟨W, ad, fused⟩
  cases ad with
  | none => cases fused <;> rfl
  | some a =>
    cases fused with
    | true => rfl
    | false =>
      show Matrix.mulVec (W + a.delta) x = _
      simp only [LoraLinear.forwardScaled, LoraAdapter.delta, Matrix.add_mulVec, one_smul,
        Matrix.mulVec_mulVec, Matrix.smul_mulVec_assoc]

lemma LoraLinear.forwardScaled_unfuse {n r : Nat} (l : LoraLinear n r) (x : Fin n → ℚ) :
    l.unfuse.forwardScaled 1 x = l.forwardScaled 1 x := by
  rcases l with ⟨W, ad, fused⟩
  cases ad with
  | none => cases fused <;> rfl
  | some a =>
    cases fused with
    | false => rfl
    | true =>
      show Matrix.mulVec (W - a.delta) x +
          (1 : ℚ) • a.scale • Matrix.mulVec a.up (Matrix.mulVec a.down x) = Matrix.mulVec W x
      simp only [LoraAdapter.delta, Matrix.sub_mulVec, one_smul,
        Matrix.mulVec_mulVec, Matrix.smul_mulVec_assoc]
      abel

lemma LoraLinear.forwardScaled_unload {n r : Nat} (l : LoraLinear n r) (s : ℚ)
    (x : Fin n → ℚ) : l.unload.forwardScaled s x = Matrix.mulVec l.weight x := by
  unfold LoraLinear.unload LoraLinear.forwardScaled
  simp

lemma LoraLinear.forwardScaled_addAdapter_zero {n r : Nat} (l : LoraLinear n r)
    (ad : LoraAdapter n r) (x : Fin n → ℚ) :
    (l.addAdapter ad).forwardScaled 0 x = Matrix.mulVec l.weight x := by
  unfold LoraLinear.addAdapter LoraLinear.forwardScaled
  simp

lemma encForwardScaled_congr {n r : Nat} (f : LoraLinear n r → LoraLinear n r) (s t : ℚ)
    (ls : List (LoraLinear n r))
    (h : ∀ l ∈ ls, ∀ x, (f l).forwardScaled s x = l.forwardScaled t x) (x : Fin n → ℚ) :
    encForwardScaled (ls.map f) s x = encForwardScaled ls t x := by
  induction ls generalizing x with
  | nil => rfl
  | cons hd tl ih =>
    simp only [encForwardScaled, List.map_cons, List.foldl_cons]
    rw [h hd (by simp)]
    exact ih (fun l hl x => h l (by simp [hl]) x) _

lemma noLora_adapter_none {n r : Nat} {ls : List (LoraLinear n r)} (h : noLora ls = true) :
    ∀ l ∈ ls, l.adapter = none := by
  intro l hl
  have := List.all_eq_true.mp h l hl
  exact Option.isNone_iff_eq_none.mp this

lemma encForwardScaled_scale_invariant {n r : Nat} {ls : List (LoraLinear n r)}
    (h : noLora ls = true) (s t : ℚ) (x : Fin n → ℚ) :
    encForwardScaled ls s x = encForwardScaled ls t x := by
  have := encForwardScaled_congr id s t ls
    (fun l hl x => by
      rw [id, LoraLinear.forwardScaled_of_none l (noLora_adapter_none h l hl) s,
        LoraLinear.forwardScaled_of_none l (noLora_adapter_none h l hl) t]) x
  simpa using this

lemma runPipeline_unfuse_lora {n r : Nat} (q : LoraPipeline n r) (seed : Nat)
    (prompt : Fin n → ℚ) :
    runPipeline (unfuse_lora q) seed prompt = runPipeline q seed prompt := by
  unfold runPipeline runScaled unfuse_lora
  simp only
  rw [encForwardScaled_congr LoraLinear.unfuse 1 1 q.textEncoder
    (fun l _ x => l.forwardScaled_unfuse x)]
  rw [encForwardScaled_congr LoraLinear.unfuse 1 1 q.unet
    (fun l _ x => l.forwardScaled_unfuse x)]

/-! ### Claim theorems: LoRA behaviour (modelled from the spec) -/

/-- Claim C1: for every pipeline with LoRA adapters attached to its text
encoder and UNet, and for every input with a fixed random seed, the
image produced after calling `fuse_lora` equals, within `atol = 1e-3`
and `rtol = 1e-3`, the image produced after the subsequent call to
`unfuse_lora`: fusing then unfusing leaves generation behaviour
numerically unchanged (here, over exact rationals, literally
unchanged). -/
theorem fuse_unfuse_round_trip {n r : Nat} (p : LoraPipeline n r) (seed : Nat)
    (prompt : Fin n → ℚ) :
    Allclose (1 / 1000) (1 / 1000)
      (runPipeline (unfuse_lora (fuse_lora p)) seed prompt)
      (runPipeline (fuse_lora p) seed prompt) :=
  allclose_of_eq (runPipeline_unfuse_lora (fuse_lora p) seed prompt)

/-- Claim C2: for every module with a LoRA adapter attached (and not yet
fused), `fuse` merges the adapter delta weights directly into the base
weights, keeps the adapter attached, marks the module fused, and removes
the separate adapter computation path: the forward pass becomes a plain
application of the merged base weights. -/
theorem fuse_lora_merges_delta {n r : Nat} (l : LoraLinear n r) (ad : LoraAdapter n r)
    (h1 : l.adapter = some ad) (h2 : l.fused = false) :
    l.fuse.weight = l.weight + ad.scale • (ad.up * ad.down) ∧
    l.fuse.adapter = some ad ∧
    l.fuse.fused = true ∧
    ∀ x : Fin n → ℚ, l.fuse.forward x = Matrix.mulVec l.fuse.weight x := by
  rcases l with ⟨W, a, fused⟩
  cases h1
  cases h2
  exact ⟨rfl, rfl, rfl, fun x => rfl⟩

/-- Closed instantiation of `fuse_lora_merges_delta` at a concrete
module. -/
theorem fuse_lora_merges_delta_witness :
    wAdapterLayer.adapter = some wAdapter ∧ wAdapterLayer.fused = false ∧
    (wAdapterLayer.fuse.weight =
        wAdapterLayer.weight + wAdapter.scale • (wAdapter.up * wAdapter.down) ∧
      wAdapterLayer.fuse.adapter = some wAdapter ∧
      wAdapterLayer.fuse.fused = true ∧
      ∀ x : Fin 1 → ℚ,
        wAdapterLayer.fuse.forward x = Matrix.mulVec wAdapterLayer.fuse.weight x) :=
  ⟨rfl, rfl, fuse_lora_merges_delta wAdapterLayer wAdapter rfl rfl⟩

/-- Claim C3: for every pipeline that starts without LoRA adapters and
gets one attached to its text encoder, `unload_lora_weights` removes
every LoRA tuner layer from the text encoder, and for every input with a
fixed random seed the pipeline's output after unloading equals, within
`atol = 1e-3` and `rtol = 1e-3`, the output produced before any adapter
was attached. -/
theorem unload_lora_round_trip {n r : Nat} (p : LoraPipeline n r) (ad : LoraAdapter n r)
    (seed : Nat) (prompt : Fin n → ℚ)
    (h1 : noLora p.textEncoder = true) (h2 : noLora p.unet = true) :
    hasLoraLayer (unload_lora_weights (addTextAdapter p ad)).textEncoder = false ∧
    Allclose (1 / 1000) (1 / 1000)
      (runPipeline (unload_lora_weights (addTextAdapter p ad)) seed prompt)
      (runPipeline p seed prompt) := by
  constructor
  · simp [unload_lora_weights, addTextAdapter, hasLoraLayer, LoraLinear.unload, List.any_map,
      Function.comp]
  · apply allclose_of_eq
    unfold runPipeline runScaled unload_lora_weights addTextAdapter
    simp only [List.map_map]
    rw [encForwardScaled_congr (LoraLinear.unload ∘ fun l => l.addAdapter ad) 1 1 p.textEncoder
      (fun l hl x => by
        show ((l.addAdapter ad).unload).forwardScaled 1 x = _
        rw [LoraLinear.forwardScaled_unload]
        show Matrix.mulVec l.weight x = _
        rw [LoraLinear.forwardScaled_of_none l (noLora_adapter_none h1 l hl) 1])]
    rw [encForwardScaled_congr LoraLinear.unload 1 1 p.unet
      (fun l hl x => by
        rw [LoraLinear.forwardScaled_unload,
          LoraLinear.forwardScaled_of_none l (noLora_adapter_none h2 l hl) 1])]

/-- Closed instantiation of `unload_lora_round_trip` at a concrete
pipeline. -/
theorem unload_lora_round_trip_witness :
    noLora wPipe.textEncoder = true ∧ noLora wPipe.unet = true ∧
    (hasLoraLayer (unload_lora_weights (addTextAdapter wPipe wAdapter)).textEncoder = false ∧
      Allclose (1 / 1000) (1 / 1000)
        (runPipeline (unload_lora_weights (addTextAdapter wPipe wAdapter)) 0 (fun _ => 1))
        (runPipeline wPipe 0 (fun _ => 1))) :=
  ⟨rfl, rfl, unload_lora_round_trip wPipe wAdapter 0 (fun _ => 1) rfl rfl⟩

/-- Claim C4: for every pipeline that starts without LoRA adapters and
gets one attached to its text encoder, running inference with
`cross_attention_kwargs` scale `0.0` produces, for the same input and
random seed, the same output within `atol = 1e-3` and `rtol = 1e-3` as
the pipeline with no LoRA attached at all. -/
theorem lora_scale_zero_identity {n r : Nat} (p : LoraPipeline n r) (ad : LoraAdapter n r)
    (seed : Nat) (prompt : Fin n → ℚ)
    (h1 : noLora p.textEncoder = true) (h2 : noLora p.unet = true) :
    Allclose (1 / 1000) (1 / 1000)
      (runScaled (addTextAdapter p ad) 0 seed prompt)
      (runPipeline p seed prompt) := by
  apply allclose_of_eq
  unfold runPipeline runScaled addTextAdapter
  simp only
  rw [encForwardScaled_congr (fun l => l.addAdapter ad) 0 1 p.textEncoder
    (fun l hl x => by
      rw [LoraLinear.forwardScaled_addAdapter_zero,
        LoraLinear.forwardScaled_of_none l (noLora_adapter_none h1 l hl) 1])]
  rw [encForwardScaled_scale_invariant h2 0 1]

/-- Closed instantiation of `lora_scale_zero_identity` at a concrete
pipeline. -/
theorem lora_scale_zero_identity_witness :
    noLora wPipe.textEncoder = true ∧ noLora wPipe.unet = true ∧
    Allclose (1 / 1000) (1 / 1000)
      (runScaled (addTextAdapter wPipe wAdapter) 0 0 (fun _ => 1))
      (runPipeline wPipe 0 (fun _ => 1)) :=
  ⟨rfl, rfl, lora_scale_zero_identity wPipe wAdapter 0 (fun _ => 1) rfl rfl⟩

/-! ### Helper lemmas for the IP-Adapter embedding -/

lemma dictSetTop_keys (d : StateDict) (k : String) (f : SubDict → SubDict) :
    (dictSetTop d k f).map Prod.fst = d.map Prod.fst := by
  unfold dictSetTop
  rw [List.map_map]
  apply List.map_congr_left
  intro p _
  by_cases h : p.1 = k <;> simp [h]

lemma safetensorsInsert_keys (sd : StateDict) (kv : PyStr × Tensor) :
    (safetensorsInsert sd kv).map Prod.fst = sd.map Prod.fst := by
  unfold safetensorsInsert
  split_ifs <;> simp [dictSetTop_keys]

lemma foldl_safetensorsInsert_keys (flat : List (PyStr × Tensor)) (sd : StateDict) :
    ((flat.foldl safetensorsInsert sd).map Prod.fst) = sd.map Prod.fst := by
  induction flat generalizing sd with
  | nil => rfl
  | cons kv rest ih => rw [List.foldl_cons, ih, safetensorsInsert_keys]

lemma buildSafetensorsStateDict_keys (flat : List (PyStr × Tensor)) :
    (buildSafetensorsStateDict flat).map Prod.fst = requiredKeys :=
  foldl_safetensorsInsert_keys flat _

lemma unload_ip_adapter_keeps_fe {p : IPPipe} {v : Option Nat}
    (h : p.safety_checker = some v) :
    (unload_ip_adapter p).feature_extractor = p.feature_extractor := by
  unfold unload_ip_adapter
  rcases p with ⟨ie, fe, sc, hp, ht, ap, cie, cfe⟩
  cases h
  rcases ie with _ | (_ | e) <;> simp

/-! ### Claim theorems: the IP-Adapter loader -/

/-- Claim C5: after `unload_ip_adapter` returns, the pipeline's
`image_encoder` reads as `None`, the UNet's `encoder_hid_proj` is
`None`, the config's `encoder_hid_dim_type` is `None`, and every UNet
attention processor has been reset to the default. -/
theorem unload_ip_adapter_postconditions (p : IPPipe) :
    (unload_ip_adapter p).image_encoder.getD none = none ∧
    (unload_ip_adapter p).encoder_hid_proj = none ∧
    (unload_ip_adapter p).encoder_hid_dim_type = none ∧
    ∀ proc ∈ (unload_ip_adapter p).attn_processors, proc = AttnProc.default := by
  unfold unload_ip_adapter
  rcases p with ⟨ie, fe, sc, hp, ht, ap, cie, cfe⟩
  rcases ie with _ | (_ | e) <;> rcases sc with _ | sc <;> rcases fe with _ | (_ | f) <;>
    simp

/-- Claim C6: `unload_ip_adapter` sets the `feature_extractor` to `None`
only when the pipeline has no `safety_checker` attribute; whenever a
`safety_checker` attribute exists (even with value `None`), the
`feature_extractor` is left unchanged. -/
theorem unload_ip_adapter_feature_extractor_frame (p : IPPipe) :
    (p.safety_checker.isSome = true →
      (unload_ip_adapter p).feature_extractor = p.feature_extractor) ∧
    ((unload_ip_adapter p).feature_extractor ≠ p.feature_extractor →
      p.safety_checker = none) := by
  constructor
  · intro h
    rcases Option.isSome_iff_exists.mp h with ⟨v, hv⟩
    exact unload_ip_adapter_keeps_fe hv
  · intro hne
    rcases hsc : p.safety_checker with _ | v
    · rfl
    · exact absurd (unload_ip_adapter_keeps_fe hsc) hne

/-- Closed instantiation of `unload_ip_adapter_feature_extractor_frame`
at a pipeline whose `safety_checker` attribute is present with value
`None`. -/
theorem unload_ip_adapter_feature_extractor_frame_witness :
    wIPPipe.safety_checker.isSome = true ∧
    (unload_ip_adapter wIPPipe).feature_extractor = wIPPipe.feature_extractor :=
  ⟨rfl, (unload_ip_adapter_feature_extractor_frame wIPPipe).1 rfl⟩

/-- Claim C7: `load_ip_adapter` raises `ValueError` for every loaded or
directly passed state dict whose ordered list of top-level keys is not
exactly `["image_proj", "ip_adapter"]` — extra keys, missing keys, or a
different key order are all rejected; otherwise every state dict is
accepted and appended, in order, to the list loaded into the UNet. -/
theorem load_ip_adapter_required_keys
    (so : String → String → PyStr → List (PyStr × Tensor))
    (tl : String → String → PyStr → StateDict)
    (entries : List (PretrainedSource × String × PyStr)) :
    collectStateDicts so tl entries =
      if ∀ e ∈ entries, (loadOneStateDict so tl e.1 e.2.1 e.2.2).map Prod.fst = requiredKeys
      then Except.ok (entries.map (fun e => loadOneStateDict so tl e.1 e.2.1 e.2.2))
      else Except.error requiredKeysError := by
  induction entries with
  | nil => simp [collectStateDicts]
  | cons e rest ih =>
    obtain ⟨pm, sub, wn⟩ := e
    simp only [collectStateDicts, requiredKeysCheck, ih, List.map_cons, List.forall_mem_cons]
    by_cases h0 : (loadOneStateDict so tl pm sub wn).map Prod.fst = requiredKeys
    · simp only [h0, if_true, true_and, eq_self_iff_true]
      split_ifs with hrest <;> rfl
    · simp [h0]

/-- Claim C8: in `load_ip_adapter`, non-list `weight_name`, `subfolder`
and `pretrained_model_name_or_path_or_dict` arguments are wrapped into
singleton lists, length-1 lists of the latter two are replicated to the
length of `weight_name`, and after this broadcasting a `ValueError` is
raised whenever `pretrained_model_name_or_path_or_dict` or `subfolder`
has a length different from `weight_name`'s; otherwise the broadcast
triple is returned. -/
theorem load_ip_adapter_broadcast {α β γ : Type} (pm : PyArg α) (sub : PyArg β)
    (wn : PyArg γ) :
    broadcastIpAdapterArgs pm sub wn =
      (let wns := wn.asList
       let pms := match pm.asList with
         | [a] => List.replicate wns.length a
         | l => l
       let subs := match sub.asList with
         | [b] => List.replicate wns.length b
         | l => l
       if wns.length ≠ pms.length then Except.error weightNamePretrainedError
       else if wns.length ≠ subs.length then Except.error weightNameSubfolderError
       else Except.ok (pms, subs, wns)) := by
  unfold broadcastIpAdapterArgs
  rcases hp : pm.asList with _ | ⟨a, _ | ⟨a2, pt⟩⟩ <;>
    rcases hs : sub.asList with _ | ⟨b, _ | ⟨b2, st⟩⟩ <;>
      simp [pyListMul_singleton]

/-- Claim C9 auxiliary: once the scale argument has become the list
`replicate k v`, processors whose scale list has length `k` are
overwritten one by one until the first mismatched IP-Adapter processor
raises, leaving it and everything after it untouched. -/
lemma set_ip_adapter_scale_list_run (v : ℚ) (k : Nat) (ips : List (List ℚ)) (b : List ℚ)
    (rest : List AttnProc) (h2 : ∀ s ∈ ips, s.length = k) (h3 : b.length ≠ k) :
    set_ip_adapter_scale (ips.map AttnProc.ip ++ AttnProc.ip b :: rest)
        (ScaleArg.list (List.replicate k v)) =
      (ips.map (fun _ => AttnProc.ip (List.replicate k v)) ++ AttnProc.ip b :: rest,
        some (scaleLengthError b.length k)) := by
  induction ips with
  | nil =>
    simp only [List.map_nil, List.nil_append, set_ip_adapter_scale]
    rw [if_pos]
    · simp
    · simpa using h3
  | cons s ips' ih =>
    have hs : s.length = k := h2 s (by simp)
    simp only [List.map_cons, List.cons_append, set_ip_adapter_scale]
    rw [if_neg (by simpa using hs)]
    simp only [List.append_eq]
    rw [ih (fun t ht => h2 t (by simp [ht]))]

/-- Claim C9: when `set_ip_adapter_scale` is called with a non-list
scale, the scalar is expanded into a list whose length is taken from the
first IP-Adapter attention processor encountered during iteration; if a
later IP-Adapter processor has a scale list of a different length, the
call raises `ValueError` after having already overwritten the scales of
the earlier processors — the update is not atomic. -/
theorem set_ip_adapter_scale_non_atomic (v : ℚ) (k : Nat) (ips : List (List ℚ))
    (b : List ℚ) (rest : List AttnProc)
    (h1 : ips ≠ []) (h2 : ∀ s ∈ ips, s.length = k) (h3 : b.length ≠ k) :
    set_ip_adapter_scale (ips.map AttnProc.ip ++ AttnProc.ip b :: rest)
        (ScaleArg.scalar v) =
      (ips.map (fun _ => AttnProc.ip (List.replicate k v)) ++ AttnProc.ip b :: rest,
        some (scaleLengthError b.length k)) := by
  rcases ips with _ | ⟨s, ips'⟩
  · exact absurd rfl h1
  · have hs : s.length = k := h2 s (by simp)
    simp only [List.map_cons, List.cons_append, set_ip_adapter_scale]
    rw [if_neg (by simp)]
    simp only [List.append_eq]
    rw [hs]
    rw [set_ip_adapter_scale_list_run v k ips' b rest (fun t ht => h2 t (by simp [ht])) h3]

/-- Closed instantiation of `set_ip_adapter_scale_non_atomic`: two
IP-Adapter processors with scale lists of lengths 2 and 1; the scalar 5
is expanded to `[5, 5]`, the first processor is overwritten, then the
second raises. -/
theorem set_ip_adapter_scale_non_atomic_witness :
    ([[(1 : ℚ), 2]] ≠ ([] : List (List ℚ))) ∧
    (∀ s ∈ [[(1 : ℚ), 2]], s.length = 2) ∧ ([(3 : ℚ)].length ≠ 2) ∧
    set_ip_adapter_scale
        ([[(1 : ℚ), 2]].map AttnProc.ip ++ AttnProc.ip [(3 : ℚ)] :: [AttnProc.other])
        (ScaleArg.scalar 5) =
      ([[(1 : ℚ), 2]].map (fun _ => AttnProc.ip (List.replicate 2 5)) ++
          AttnProc.ip [(3 : ℚ)] :: [AttnProc.other],
        some (scaleLengthError 1 2)) :=
  ⟨by decide, by decide, by decide,
    set_ip_adapter_scale_non_atomic 5 2 [[1, 2]] [3] [AttnProc.other]
      (by decide) (by decide) (by decide)⟩

/-- Claim C10: for every weight file whose name ends with
`.safetensors`, `load_ip_adapter` builds a nested state dict having
exactly the two top-level keys `image_proj` and `ip_adapter` in that
order; tensor keys carrying any other namespace are silently dropped;
hence the required-keys `ValueError` branch is unreachable on the
safetensors path. -/
theorem safetensors_state_dict_keys :
    (∀ flat : List (PyStr × Tensor),
      (buildSafetensorsStateDict flat).map Prod.fst = requiredKeys) ∧
    (∀ (so : String → String → PyStr → List (PyStr × Tensor))
        (tl : String → String → PyStr → StateDict) (p sub : String) (wn : PyStr),
      safetensorsExt.isSuffixOf wn = true →
      requiredKeysCheck (loadOneStateDict so tl (PretrainedSource.path p) sub wn) =
        Except.ok (loadOneStateDict so tl (PretrainedSource.path p) sub wn)) ∧
    (∀ (pre post : List (PyStr × Tensor)) (k : PyStr) (v : Tensor),
      imageProjDot.isPrefixOf k = false → ipAdapterDot.isPrefixOf k = false →
      buildSafetensorsStateDict (pre ++ (k, v) :: post) =
        buildSafetensorsStateDict (pre ++ post)) := by
  refine ⟨buildSafetensorsStateDict_keys, ?_, ?_⟩
  · intro so tl p sub wn hwn
    simp only [loadOneStateDict, hwn, if_true]
    unfold requiredKeysCheck
    rw [if_pos (buildSafetensorsStateDict_keys _)]
  · intro pre post k v h1 h2
    unfold buildSafetensorsStateDict
    rw [List.foldl_append, List.foldl_append, List.foldl_cons]
    congr 1
    unfold safetensorsInsert
    rw [if_neg (by simp [h1]), if_neg (by simp [h2])]

/-- Closed instantiation of `safetensors_state_dict_keys`: a concrete
safetensors weight name passes the required-keys check, and a foreign
tensor key is dropped. -/
theorem safetensors_state_dict_keys_witness :
    (safetensorsExt.isSuffixOf "ip_adapter.safetensors".toList = true) ∧
    requiredKeysCheck
        (loadOneStateDict wSafeOpen wTorchLoad (PretrainedSource.path "repo") "models"
          "ip_adapter.safetensors".toList) =
      Except.ok
        (loadOneStateDict wSafeOpen wTorchLoad (PretrainedSource.path "repo") "models"
          "ip_adapter.safetensors".toList) ∧
    (imageProjDot.isPrefixOf "foreign.w".toList = false) ∧
    (ipAdapterDot.isPrefixOf "foreign.w".toList = false) ∧
    buildSafetensorsStateDict [("image_proj.w".toList, 0), ("foreign.w".toList, 1)] =
      buildSafetensorsStateDict [("image_proj.w".toList, 0)] :=
  ⟨by decide,
    safetensors_state_dict_keys.2.1 wSafeOpen wTorchLoad "repo" "models"
      "ip_adapter.safetensors".toList (by decide),
    by decide, by decide,
    safetensors_state_dict_keys.2.2 [("image_proj.w".toList, 0)] [] "foreign.w".toList 1
      (by decide) (by decide)⟩
